import Mathlib

/-!
Shallow embedding of `src/pocket_stats/visualization.py` (pocket-tools).

The dashboard in `visualization.py` reads a process-wide article collection
(loaded once via `load_cache()`) and builds derived views: a word cloud, an
articles-over-time line chart, word-count and reading-time histograms, a
domain bar chart, a language pie chart, a favorites summary, and a reactive
reading-speed slider wired to the reading-time chart and a total-duration
text.

The aggregation helpers imported from the repository's `data` module
(`get_reading_time`, `get_word_counts`, `get_domain_counts`,
`get_language_counts`, `get_favorite_count`, `get_added_time_series`,
`get_archived_time_series`, `count_words_in_title`) and the constant
`DEFAULT_READING_SPEED` from the `constants` module are not under `src/`;
they are modelled here from the spec (each such definition's doc comment
starts with "Modelled from the spec:").  Everything else is translated
directly from `visualization.py`.

Python numeric conventions used by the source are embedded as follows:
float division of nonnegative quantities becomes division in `ℚ`;
`int(...)` truncation of a nonnegative value becomes `Nat.floor` (`⌊·⌋₊`);
Python `//`-style nested `int(int(m/24)/60)` becomes `m / 24 / 60` on `ℕ`.
-/

namespace PocketStats

/-- Article record, per the spec's data model: title text, URL, status
(unread = 0, archived = 1), detected language code, favorite flag, word
count, added timestamp and optional archived timestamp. -/
structure Article where
  title : String
  url : String
  status : Nat
  lang : String
  favorite : Bool
  word_count : Nat
  time_added : Nat
  time_archived : Option Nat
deriving DecidableEq

/-- Filter triple `[field, operator, value]` as passed by
`visualization.py`, e.g. `['status', '=', 0]`. -/
abbrev Filter := String × String × Nat

/-- Modelled from the spec: numeric field lookup used by the equality
filters of the `data` module's aggregation interface.  Only `status`
equality is exercised by `visualization.py`. -/
def articleField (a : Article) (field : String) : Nat :=
  if field = "status" then a.status
  else if field = "favorite" then (if a.favorite then 1 else 0)
  else 0

/-- Modelled from the spec: a record matches a filter list when every
`[field, '=', value]` triple holds (only equality is exercised). -/
def matchesFilters (filters : List Filter) (a : Article) : Bool :=
  filters.all (fun f => if f.2.1 = "=" then articleField a f.1 == f.2.2 else true)

/-- Modelled from the spec: `get_reading_time` from the repository's `data`
module (not under `src/`).  It maps the collection, a reading speed and the
filters to the per-article estimated reading time in minutes,
time = words divided by speed. -/
def get_reading_time (data : List Article) (reading_speed : Nat)
    (filters : List Filter) : List ℚ :=
  (data.filter (matchesFilters filters)).map
    (fun a => (a.word_count : ℚ) / (reading_speed : ℚ))

/-- Modelled from the spec: the `DEFAULT_READING_SPEED` constant of the
repository's `constants` module (not under `src/`).  The spec fixes it only
as a positive default words-per-minute constant; the concrete value here is
representative, and no theorem below depends on it beyond positivity. -/
def DEFAULT_READING_SPEED : Nat := 225

/-- Local `total_minutes` of `get_reading_time_needed`
(visualization.py line 103):
`int(sum(get_reading_time(data, reading_speed, filters=[['status','=',0]])))`. -/
def total_minutes (data : List Article) (reading_speed : Nat) : Nat :=
  ⌊(get_reading_time data reading_speed [("status", "=", 0)]).sum⌋₊

/-- Local `days` of `get_reading_time_needed` (line 104):
`int(int(total_minutes/24)/60)`. -/
def days (m : Nat) : Nat := m / 24 / 60

/-- Local `hours` of `get_reading_time_needed` (line 104):
`int(total_minutes/60) % 24`. -/
def hours (m : Nat) : Nat := m / 60 % 24

/-- Local `minutes` of `get_reading_time_needed` (line 104):
`total_minutes % 60`. -/
def minutes (m : Nat) : Nat := m % 60

/-- The string `ans` built by `get_reading_time_needed` (lines 105-111):
starting from the empty string, append a leading-space fragment for each of
days, hours, minutes whose value is strictly positive. -/
def duration_ans (m : Nat) : String :=
  (if days m > 0 then " " ++ toString (days m) ++ " days" else "") ++
  (if hours m > 0 then " " ++ toString (hours m) ++ " hours" else "") ++
  (if minutes m > 0 then " " ++ toString (minutes m) ++ " minutes" else "")

/-- A heading plus body text, standing for the `html.Div` containing an
`html.H3` heading and a child `html.Div` with the text. -/
structure TextDiv where
  heading : String
  body : String
deriving DecidableEq

/-- `get_reading_time_needed` (lines 102-115): total unread reading time in
minutes decomposed into days/hours/minutes and rendered, wrapped in a div
with the heading "Total reading time needed". -/
def get_reading_time_needed (data : List Article) (reading_speed : Nat) : TextDiv :=
  { heading := "Total reading time needed"
  , body := duration_ans (total_minutes data reading_speed) }

/-- Occurrence counting used by the modelled grouping helpers: the distinct
keys of `xs`, each paired with its number of occurrences in `xs`. -/
def countPairs (xs : List String) : List (String × Nat) :=
  xs.dedup.map (fun w => (w, xs.count w))

/-- Splitting a character list at spaces, accumulating the current word in
reverse; the structural-recursion counterpart of splitting a title string
into its words. -/
def splitWords (cs : List Char) (acc : List Char) : List String :=
  match cs with
  | [] => if acc.isEmpty then [] else [String.mk acc.reverse]
  | c :: rest =>
    if c == ' ' then
      (if acc.isEmpty then [] else [String.mk acc.reverse]) ++ splitWords rest []
    else splitWords rest (c :: acc)

/-- Space-separated words of a title. -/
def titleWords (t : String) : List String := splitWords t.data []

/-- Modelled from the spec: `count_words_in_title` from the repository's
`data` module (not under `src/`): occurrence counts of the words appearing
in the titles of the collection. -/
def count_words_in_title (data : List Article) : List (String × Nat) :=
  countPairs ((data.map (fun a => titleWords a.title)).flatten)

/-- Modelled from the spec: `get_word_counts` from the `data` module
(not under `src/`): the word count of each record passing the filters. -/
def get_word_counts (data : List Article) (filters : List Filter) : List Nat :=
  (data.filter (matchesFilters filters)).map (fun a => a.word_count)

/-- Modelled from the spec: the domain derived from a URL (scheme stripped,
then everything before the first slash). -/
def domain_of (u : String) : String :=
  (((u.splitOn "://").getLastD u).splitOn "/").headD ""

/-- Modelled from the spec: `get_domain_counts` from the `data` module
(not under `src/`): counts by domain of the records passing the filters. -/
def get_domain_counts (data : List Article) (filters : List Filter := []) :
    List (String × Nat) :=
  countPairs ((data.filter (matchesFilters filters)).map (fun a => domain_of a.url))

/-- Modelled from the spec: `get_language_counts` from the `data` module
(not under `src/`): counts by detected language code. -/
def get_language_counts (data : List Article) : List (String × Nat) :=
  countPairs (data.map (fun a => a.lang))

/-- Result mapping of `get_favorite_count`: a count of favorited articles
and a percent fraction. -/
structure FavoriteCount where
  count : Nat
  percent : ℚ
deriving DecidableEq

/-- Modelled from the spec: `get_favorite_count` from the `data` module
(not under `src/`): the number of favorited articles together with the
fraction (count of favorited articles) / (total articles). -/
def get_favorite_count (data : List Article) : FavoriteCount :=
  let c := (data.filter (fun a => a.favorite)).length
  { count := c, percent := (c : ℚ) / (data.length : ℚ) }

/-- Dates present in a list of (date, count) rows. -/
def rowDates (rows : List (Nat × Nat)) : List Nat := rows.map (fun p => p.1)

/-- Modelled from the spec: `get_added_time_series` from the `data` module
(not under `src/`): per added-date article counts, date-ascending. -/
def get_added_time_series (data : List Article) : List (Nat × Nat) :=
  let ds := data.map (fun a => a.time_added)
  (ds.dedup.insertionSort (· ≤ ·)).map (fun d => (d, ds.count d))

/-- Modelled from the spec: `get_archived_time_series` from the `data`
module (not under `src/`): per archived-date counts of the records that
have an archived timestamp, date-ascending. -/
def get_archived_time_series (data : List Article) : List (Nat × Nat) :=
  let ds := data.filterMap (fun a => a.time_archived)
  (ds.dedup.insertionSort (· ≤ ·)).map (fun d => (d, ds.count d))

/-- Value of a (date, count) table at a date, when present: the pandas
column value before `fillna`. -/
def seriesAt (rows : List (Nat × Nat)) (d : Nat) : Option Nat :=
  (rows.find? (fun p => p.1 == d)).map (fun p => p.2)

/-- Outer merge on the date index of the added and archived series
(`pd.merge(..., how='outer', left_index=True, right_index=True)`). -/
def mergeOuter (a b : List (Nat × Nat)) : List (Nat × Option Nat × Option Nat) :=
  ((rowDates a ++ rowDates b).dedup.insertionSort (· ≤ ·)).map
    (fun d => (d, seriesAt a d, seriesAt b d))

/-- Running cumulative sums of the two count columns (`df.cumsum()`). -/
def cumsum2 (acc0 acc1 : Nat) : List (Nat × Nat × Nat) → List (Nat × Nat × Nat)
  | [] => []
  | (d, x, y) :: rest => (d, acc0 + x, acc1 + y) :: cumsum2 (acc0 + x) (acc1 + y) rest

/-- Line-figure descriptor: the date-indexed rows plotted by `px.line` and
the chart title. -/
structure LineFig where
  rows : List (Nat × Option Nat × Option Nat)
  title : String
deriving DecidableEq

/-- `articles_over_time_plot` (lines 49-60): added series, outer-merged
with the archived series when the latter is non-empty; with
`should_cumsum`, missing cells become 0 and both columns are accumulated. -/
def articles_over_time_plot (data : List Article) (should_cumsum : Bool := true) :
    LineFig :=
  let df := get_added_time_series data
  let archived_df := get_archived_time_series data
  let merged : List (Nat × Option Nat × Option Nat) :=
    if archived_df.length > 0 then mergeOuter df archived_df
    else df.map (fun p => (p.1, some p.2, none))
  let rows :=
    if should_cumsum then
      (cumsum2 0 0 (merged.map (fun r => (r.1, r.2.1.getD 0, r.2.2.getD 0)))).map
        (fun r => (r.1, some r.2.1, some r.2.2))
    else merged
  { rows := rows, title := "Article Count Over Time" }

/-- Scatter-figure descriptor of the word cloud: point coordinates, the
word texts, their font sizes (the word counts) and font colors. -/
structure Scatter where
  x : List ℚ
  y : List ℚ
  text : List String
  textSizes : List Nat
  textColors : List ℚ
deriving DecidableEq

/-- `word_cloud_plot` (lines 28-46).  The Python body draws from the global
`random` module: one `random.randrange` per word for the colors (line 33),
then one `random.random()` per word for `x` and one per word for `y`
(lines 34-35).  The module's stream of pending draws is the explicit
argument `rng`; the three comprehensions consume three blocks of `n_word`
draws in evaluation order. -/
def word_cloud_plot (data : List Article) (rng : List ℚ) : Scatter :=
  let word_cnts := count_words_in_title data
  let n_word := word_cnts.length
  let words := word_cnts.map (fun p => p.1)
  let weights := word_cnts.map (fun p => p.2)
  let colors := rng.take n_word
  { x := (rng.drop n_word).take n_word
  , y := (rng.drop (2 * n_word)).take n_word
  , text := words
  , textSizes := weights
  , textColors := colors }

/-- Two-series stacked-histogram descriptor: the raw values handed to the
two `go.Histogram` traces, their legend names, titles and the bar mode. -/
structure HistFig (α : Type) where
  series0 : List α
  name0 : String
  series1 : List α
  name1 : String
  title : String
  xaxis_title : String
  barmode : String
deriving DecidableEq

/-- `word_counts_plot` (lines 63-79): word-count histograms of the unread
(status = 0) and archived (status = 1) articles, stacked. -/
def word_counts_plot (data : List Article) : HistFig Nat :=
  { series0 := get_word_counts data [("status", "=", 0)]
  , name0 := "Unread articles"
  , series1 := get_word_counts data [("status", "=", 1)]
  , name1 := "Archived articles"
  , title := "Word Count Distribution"
  , xaxis_title := "Number of words"
  , barmode := "stack" }

/-- `get_reading_time_chart` (lines 83-99): reading-time histograms of the
unread (status = 0) and archived (status = 1) articles at the given
reading speed, stacked. -/
def get_reading_time_chart (data : List Article) (reading_speed : Nat) : HistFig ℚ :=
  { series0 := get_reading_time data reading_speed [("status", "=", 0)]
  , name0 := "Unread articles"
  , series1 := get_reading_time data reading_speed [("status", "=", 1)]
  , name1 := "Archived articles"
  , title := "Reading Time Distribution"
  , xaxis_title := "Estimated reading time (minutes) with reading speed = "
      ++ toString reading_speed ++ " wpm"
  , barmode := "stack" }

/-- `update_reading_time_components` (lines 118-125): the reactive callback
mapping the slider value to the reading-time figure and the duration div. -/
def update_reading_time_components (data : List Article) (reading_speed : Nat) :
    HistFig ℚ × TextDiv :=
  (get_reading_time_chart data reading_speed, get_reading_time_needed data reading_speed)

/-- Slider-control descriptor mirroring the `dcc.Slider` keyword
arguments. -/
structure Slider where
  id : String
  marks : List Nat
  min : Nat
  max : Nat
  step : Nat
  value : Nat
deriving DecidableEq

/-- Reading-time pane: heading, slider, the initially empty duration div
and an initially empty figure placeholder. -/
structure ReadingTimePane where
  heading : String
  slider : Slider
  needed_init : String
deriving DecidableEq

/-- `reading_time_plot` (lines 128-139): the slider has marks at
`range(100, max_reading_speed, 100)`, bounds `min=1`,
`max = DEFAULT_READING_SPEED * 3`, `step=10` and initial
`value = DEFAULT_READING_SPEED`. -/
def reading_time_plot (_data : List Article) : ReadingTimePane :=
  let max_reading_speed := DEFAULT_READING_SPEED * 3
  { heading := "Reading speed (wpm)"
  , slider :=
    { id := "reading-speed"
    , marks := List.range' 100 ((max_reading_speed - 100 + 99) / 100) 100
    , min := 1
    , max := max_reading_speed
    , step := 10
    , value := DEFAULT_READING_SPEED }
  , needed_init := "" }

/-- Two-series horizontal-bar descriptor of the top-domains chart. -/
structure BarFig where
  x0 : List Nat
  y0 : List String
  name0 : String
  x1 : List Nat
  y1 : List String
  name1 : String
  title : String
  barmode : String
deriving DecidableEq

/-- Count of a domain in a counts table, 0 when absent
(`counts.get(d, 0)`). -/
def domainCount (counts : List (String × Nat)) (d : String) : Nat :=
  ((counts.find? (fun p => p.1 == d)).map (fun p => p.2)).getD 0

/-- `domain_counts_plot` (lines 143-169): the overall domain counts sorted
descending by count, truncated to `limit` and reversed; each retained
domain gets an unread bar and an archived bar. -/
def domain_counts_plot (data : List Article) (limit : Nat := 20) : BarFig :=
  let top_pairs := ((get_domain_counts data).insertionSort
    (fun p q => q.2 ≤ p.2)).take limit |>.reverse
  let top_domains := top_pairs.map (fun p => p.1)
  let unread_domain_cnts := get_domain_counts data [("status", "=", 0)]
  let archived_domain_cnts := get_domain_counts data [("status", "=", 1)]
  { x0 := top_domains.map (domainCount unread_domain_cnts)
  , y0 := top_domains
  , name0 := "Unread articles"
  , x1 := top_domains.map (domainCount archived_domain_cnts)
  , y1 := top_domains
  , name1 := "Archived articles"
  , title := "Top Domains"
  , barmode := "stack" }

/-- Pie-figure descriptor of the languages chart. -/
structure PieFig where
  labels : List String
  values : List Nat
  title : String
deriving DecidableEq

/-- `language_counts_plot` (lines 172-183). -/
def language_counts_plot (data : List Article) : PieFig :=
  let pairs := get_language_counts data
  { labels := pairs.map (fun p => p.1)
  , values := pairs.map (fun p => p.2)
  , title := "Languages" }

/-- Modelled from the spec: the C-style two-decimal rendering of the
Python `'%.2f'` format applied to the nonnegative percentages occurring
here, as the nearest hundredth. -/
def format2f (q : ℚ) : String :=
  let n : ℤ := ⌊q * 100 + 1 / 2⌋
  toString (n / 100) ++ "." ++
    (if n % 100 < 10 then "0" else "") ++ toString (n % 100)

/-- `favorite_count_plot` (lines 186-197): heading "Favorite" and the text
`f"{res['count']} articles ({'%.2f' % (100.0 * res['percent'])} %)"`. -/
def favorite_count_plot (data : List Article) : TextDiv :=
  let res := get_favorite_count data
  { heading := "Favorite"
  , body := toString res.count ++ " articles ("
      ++ format2f (100 * res.percent) ++ " %)" }

/-- Process state seen by the dashboard handlers: the collection loaded
once by `load_cache()` (line 18) and the pending draws of the global
`random` module.  No handler in `visualization.py` assigns to the global
`data`, so every state-passing wrapper below returns `data` unchanged; only
the word cloud consumes random draws. -/
structure DashState where
  data : List Article
  rng : List ℚ
deriving DecidableEq

/-- State-passing wrapper of `word_cloud_plot`: reads `data`, consumes
three blocks of `n_word` random draws. -/
def word_cloud_plotS (s : DashState) : Scatter × DashState :=
  (word_cloud_plot s.data s.rng,
   { s with rng := s.rng.drop (3 * (count_words_in_title s.data).length) })

/-- State-passing wrapper of `articles_over_time_plot`: reads `data`,
leaves the state untouched. -/
def articles_over_time_plotS (s : DashState) (should_cumsum : Bool) :
    LineFig × DashState :=
  (articles_over_time_plot s.data should_cumsum, s)

/-- State-passing wrapper of `word_counts_plot`. -/
def word_counts_plotS (s : DashState) : HistFig Nat × DashState :=
  (word_counts_plot s.data, s)

/-- State-passing wrapper of `get_reading_time_chart`. -/
def get_reading_time_chartS (s : DashState) (reading_speed : Nat) :
    HistFig ℚ × DashState :=
  (get_reading_time_chart s.data reading_speed, s)

/-- State-passing wrapper of `get_reading_time_needed`. -/
def get_reading_time_neededS (s : DashState) (reading_speed : Nat) :
    TextDiv × DashState :=
  (get_reading_time_needed s.data reading_speed, s)

/-- State-passing wrapper of the reactive callback
`update_reading_time_components`: reads the shared collection, writes
nothing. -/
def update_reading_time_componentsS (s : DashState) (reading_speed : Nat) :
    (HistFig ℚ × TextDiv) × DashState :=
  (update_reading_time_components s.data reading_speed, s)

/-- State-passing wrapper of `domain_counts_plot`. -/
def domain_counts_plotS (s : DashState) (limit : Nat) : BarFig × DashState :=
  (domain_counts_plot s.data limit, s)

/-- State-passing wrapper of `language_counts_plot`. -/
def language_counts_plotS (s : DashState) : PieFig × DashState :=
  (language_counts_plot s.data, s)

/-- State-passing wrapper of `favorite_count_plot`. -/
def favorite_count_plotS (s : DashState) : TextDiv × DashState :=
  (favorite_count_plot s.data, s)

/-- Number of values of a histogram series that fall in the half-open
bucket `[lo, hi)` — the per-bucket count plotted by a `go.Histogram`
trace. -/
def bucketCount (lo hi : ℚ) (xs : List ℚ) : Nat :=
  (xs.filter (fun x => decide (lo ≤ x) && decide (x < hi))).length

/-- Concrete unread article used by witnesses: 9000 words, so 90 minutes at
a reading speed of 100 wpm. -/
def artUnread : Article :=
  { title := "hello world", url := "https://example.com/a", status := 0
  , lang := "en", favorite := false, word_count := 9000, time_added := 5
  , time_archived := none }

/-- Concrete archived favorited article used by witnesses. -/
def artArchived : Article :=
  { title := "other title", url := "https://example.org/b", status := 1
  , lang := "vi", favorite := true, word_count := 300, time_added := 6
  , time_archived := some 7 }

/-- Singleton collection whose total unread reading time at 100 wpm is
exactly 90 minutes. -/
def data90 : List Article := [artUnread]

/-- Two-article collection with one unread and one archived record. -/
def dataW : List Article := [artUnread, artArchived]

/-- Collection with no unread article (hence zero unread words). -/
def dataZ : List Article := [artArchived]

/-- Dashboard state over `data90` with one stream of pending random
draws. -/
def stateA : DashState := { data := data90, rng := [0, 0, 0, 0, 0, 0] }

/-- Dashboard state sharing the collection of `stateA` but with a different
stream of pending random draws. -/
def stateB : DashState := { data := data90, rng := [1, 0, 0, 0, 0, 0] }

/-! Helper lemmas shared by the claim theorems. -/

/-- A `['status', '=', v]` filter list matches exactly the records of
status `v`. -/
theorem matchesFilters_status (v : Nat) (a : Article) :
    matchesFilters [("status", "=", v)] a = (a.status == v) := by
  simp [matchesFilters, articleField]

/-- An empty filter list matches every record. -/
theorem matchesFilters_nil (a : Article) : matchesFilters [] a = true := rfl

/-- Every per-article estimated reading time is nonnegative. -/
theorem get_reading_time_nonneg (data : List Article) (reading_speed : Nat)
    (filters : List Filter) :
    ∀ x ∈ get_reading_time data reading_speed filters, 0 ≤ x := by
  intro x hx
  unfold get_reading_time at hx
  simp only [List.mem_map] at hx
  obtain ⟨a, _, rfl⟩ := hx
  positivity

/-- Raising the reading speed cannot raise the summed estimated reading
time. -/
theorem sum_get_reading_time_anti (data : List Article) (filters : List Filter)
    {s1 s2 : Nat} (h1 : 1 ≤ s1) (h12 : s1 ≤ s2) :
    (get_reading_time data s2 filters).sum ≤ (get_reading_time data s1 filters).sum := by
  unfold get_reading_time
  apply List.sum_le_sum
  intro a _
  have ha : (0 : ℚ) ≤ (a.word_count : ℚ) := Nat.cast_nonneg _
  have hs1 : (0 : ℚ) < (s1 : ℚ) := by exact_mod_cast h1
  have hs12 : (s1 : ℚ) ≤ (s2 : ℚ) := by exact_mod_cast h12
  gcongr

/-- Bucket count of a filtered-then-mapped list as a `countP` over the
original records. -/
theorem length_filter_map_filter (g : Article → Bool) (h2 : Article → ℚ)
    (p : ℚ → Bool) (l : List Article) :
    (((l.filter g).map h2).filter p).length = l.countP (fun a => g a && p (h2 a)) := by
  induction l with
  | nil => rfl
  | cons a t ih =>
    simp only [List.filter_cons, List.countP_cons]
    by_cases hg : g a
    · by_cases hp : p (h2 a) <;> simp [hg, hp, ih]
    · simp [hg, ih]

/-- When every record's status is 0 or 1, the status-0 matches and the
status-1 matches of any additional predicate partition its matches. -/
theorem countP_status_partition (p : Article → Bool) (l : List Article)
    (h : ∀ a ∈ l, a.status = 0 ∨ a.status = 1) :
    l.countP (fun a => (a.status == 0) && p a)
        + l.countP (fun a => (a.status == 1) && p a)
      = l.countP p := by
  induction l with
  | nil => rfl
  | cons a t ih =>
    have ha := h a (by simp)
    have ht := ih (fun x hx => h x (by simp [hx]))
    simp only [List.countP_cons]
    rcases ha with h0 | h0 <;> by_cases hp : p a <;>
      simp [h0, hp, ht] <;> omega

/-- Rendering a zero total yields the empty string. -/
theorem duration_ans_zero : duration_ans 0 = "" := by decide

/-- When every unread record has zero words, the floored total of unread
reading minutes is zero. -/
theorem total_minutes_eq_zero (data : List Article) (reading_speed : Nat)
    (h : ∀ a ∈ data, a.status = 0 → a.word_count = 0) :
    total_minutes data reading_speed = 0 := by
  unfold total_minutes
  have hz : (get_reading_time data reading_speed [("status", "=", 0)]).sum = 0 := by
    apply List.sum_eq_zero
    intro x hx
    unfold get_reading_time at hx
    simp only [List.mem_map, List.mem_filter] at hx
    obtain ⟨a, ⟨hamem, hafil⟩, rfl⟩ := hx
    rw [matchesFilters_status] at hafil
    have h0 : a.status = 0 := by simpa using hafil
    rw [h a hamem h0]
    simp
  rw [hz]
  simp

/-- Concrete evaluation: the singleton 9000-word unread collection read at
100 wpm totals 90 floored minutes. -/
theorem total_minutes_data90 : total_minutes data90 100 = 90 := by
  unfold total_minutes get_reading_time data90 artUnread
  simp [matchesFilters, articleField]
  norm_num

/-! Claim theorems. -/

/-- C10: for every nonnegative total number of minutes `m`, the integer
decomposition computed by `get_reading_time_needed` is exact:
days × 24 × 60 + hours × 60 + minutes = m, with hours < 24 and
minutes < 60, and the oddly nested `int(int(m/24)/60)` equals
`m // 1440`. -/
theorem C10_decomposition_exact (m : Nat) :
    days m * (24 * 60) + hours m * 60 + minutes m = m
      ∧ hours m < 24 ∧ minutes m < 60 ∧ days m = m / 1440 := by
  unfold days hours minutes
  omega

/-- C1: `get_reading_time_needed` totals the estimated reading time of the
unread (status = 0) articles only, decomposes it exactly into days, hours
and minutes, renders each unit only when its value is positive, and yields
the empty string when all three units are zero — in particular when every
unread article has zero words. -/
theorem C1_duration_output_correct (data : List Article) (reading_speed : Nat) :
    total_minutes data reading_speed
        = ⌊((data.filter (fun a => a.status == 0)).map
            (fun a => (a.word_count : ℚ) / (reading_speed : ℚ))).sum⌋₊
      ∧ days (total_minutes data reading_speed) * (24 * 60)
          + hours (total_minutes data reading_speed) * 60
          + minutes (total_minutes data reading_speed)
          = total_minutes data reading_speed
      ∧ (get_reading_time_needed data reading_speed).body
          = (if days (total_minutes data reading_speed) > 0
              then " " ++ toString (days (total_minutes data reading_speed)) ++ " days"
              else "")
            ++ (if hours (total_minutes data reading_speed) > 0
              then " " ++ toString (hours (total_minutes data reading_speed)) ++ " hours"
              else "")
            ++ (if minutes (total_minutes data reading_speed) > 0
              then " " ++ toString (minutes (total_minutes data reading_speed)) ++ " minutes"
              else "")
      ∧ (total_minutes data reading_speed = 0
          → (get_reading_time_needed data reading_speed).body = "")
      ∧ ((∀ a ∈ data, a.status = 0 → a.word_count = 0)
          → (get_reading_time_needed data reading_speed).body = "") := by
  refine ⟨?_, ?_, rfl, ?_, ?_⟩
  · unfold total_minutes get_reading_time
    rw [List.filter_congr (fun a _ => matchesFilters_status 0 a)]
  · unfold days hours minutes
    omega
  · intro h
    simp only [get_reading_time_needed, h]
    exact duration_ans_zero
  · intro h
    simp only [get_reading_time_needed, total_minutes_eq_zero data reading_speed h]
    exact duration_ans_zero

/-- C1 witness: on a collection whose only article is archived, the unread
total is zero and the duration string is empty. -/
theorem C1_duration_output_correct_witness :
    (get_reading_time_needed dataZ 225).body = "" :=
  (C1_duration_output_correct dataZ 225).2.2.2.2 (by decide)

/-- C5 counterexample: at a 90-minute unread total the rendered string is
not the claim's literal `"1 hours 30 minutes"` — the code prepends a space
to every rendered unit. -/
theorem C5_counterexample :
    total_minutes data90 100 = 90
      ∧ (get_reading_time_needed data90 100).body ≠ "1 hours 30 minutes"
      ∧ (get_reading_time_needed data90 100).body = " 1 hours 30 minutes" := by
  refine ⟨total_minutes_data90, ?_, ?_⟩ <;>
    · simp only [get_reading_time_needed, total_minutes_data90]
      decide

/-- C5 (amended): whenever the unread total is exactly 90 minutes, the
output has no days component and renders 1 hour and 30 minutes, each unit
preceded by a single space: the string is `" 1 hours 30 minutes"`. -/
theorem C5_ninety_minutes (data : List Article) (reading_speed : Nat)
    (h : total_minutes data reading_speed = 90) :
    (get_reading_time_needed data reading_speed).body = " 1 hours 30 minutes" := by
  simp only [get_reading_time_needed, h]
  decide

/-- C5 witness: the singleton 9000-word unread collection at 100 wpm totals
90 minutes and renders `" 1 hours 30 minutes"`. -/
theorem C5_ninety_minutes_witness :
    total_minutes data90 100 = 90
      ∧ (get_reading_time_needed data90 100).body = " 1 hours 30 minutes" :=
  ⟨total_minutes_data90, C5_ninety_minutes data90 100 total_minutes_data90⟩

/-- C2: for every reading speed in the slider's range
`[1, 3 × DEFAULT_READING_SPEED]`, both endpoints included, the divisor of
the reading-time computation is nonzero (no division by zero), the total
unread reading time is nonnegative, and every value of both chart series
is nonnegative. -/
theorem C2_speed_range_safe (data : List Article) (reading_speed : Nat)
    (h1 : 1 ≤ reading_speed) (_h2 : reading_speed ≤ 3 * DEFAULT_READING_SPEED) :
    (reading_speed : ℚ) ≠ 0
      ∧ 0 ≤ (get_reading_time data reading_speed [("status", "=", 0)]).sum
      ∧ (∀ x ∈ (get_reading_time_chart data reading_speed).series0, 0 ≤ x)
      ∧ (∀ x ∈ (get_reading_time_chart data reading_speed).series1, 0 ≤ x) := by
  refine ⟨?_, ?_, ?_, ?_⟩
  · have : reading_speed ≠ 0 := by omega
    exact_mod_cast this
  · exact List.sum_nonneg (get_reading_time_nonneg data reading_speed _)
  · simpa only [get_reading_time_chart] using
      get_reading_time_nonneg data reading_speed [("status", "=", 0)]
  · simpa only [get_reading_time_chart] using
      get_reading_time_nonneg data reading_speed [("status", "=", 1)]

/-- C2 witness: both slider endpoints are admissible concrete speeds on the
two-article collection. -/
theorem C2_speed_range_safe_witness :
    (1 ≤ 1 ∧ 1 ≤ 3 * DEFAULT_READING_SPEED
      ∧ ((1 : ℚ) ≠ 0
        ∧ 0 ≤ (get_reading_time dataW 1 [("status", "=", 0)]).sum
        ∧ (∀ x ∈ (get_reading_time_chart dataW 1).series0, 0 ≤ x)
        ∧ (∀ x ∈ (get_reading_time_chart dataW 1).series1, 0 ≤ x)))
    ∧ (1 ≤ 3 * DEFAULT_READING_SPEED
      ∧ ((3 * DEFAULT_READING_SPEED : ℚ) ≠ 0
        ∧ 0 ≤ (get_reading_time dataW (3 * DEFAULT_READING_SPEED)
            [("status", "=", 0)]).sum
        ∧ (∀ x ∈ (get_reading_time_chart dataW (3 * DEFAULT_READING_SPEED)).series0,
            0 ≤ x)
        ∧ (∀ x ∈ (get_reading_time_chart dataW (3 * DEFAULT_READING_SPEED)).series1,
            0 ≤ x))) := by
  refine ⟨⟨by decide, by decide, ?_⟩, by decide, ?_⟩
  · exact_mod_cast C2_speed_range_safe dataW 1 (by decide) (by decide)
  · exact_mod_cast C2_speed_range_safe dataW (3 * DEFAULT_READING_SPEED)
      (by decide) (by decide)

/-- C4: for a fixed collection, the total estimated unread reading time —
both the exact rational sum and the floored minute total the code
computes — is non-increasing in the reading speed. -/
theorem C4_total_time_antitone (data : List Article) (s1 s2 : Nat)
    (h1 : 1 ≤ s1) (h12 : s1 < s2) :
    (get_reading_time data s2 [("status", "=", 0)]).sum
        ≤ (get_reading_time data s1 [("status", "=", 0)]).sum
      ∧ total_minutes data s2 ≤ total_minutes data s1 := by
  have hsum := sum_get_reading_time_anti data [("status", "=", 0)] h1 (le_of_lt h12)
  exact ⟨hsum, Nat.floor_mono hsum⟩

/-- C4 witness: doubling the speed from 100 to 200 wpm on the two-article
collection does not increase the totals. -/
theorem C4_total_time_antitone_witness :
    1 ≤ 100 ∧ 100 < 200
      ∧ ((get_reading_time dataW 200 [("status", "=", 0)]).sum
          ≤ (get_reading_time dataW 100 [("status", "=", 0)]).sum
        ∧ total_minutes dataW 200 ≤ total_minutes dataW 100) :=
  ⟨by decide, by decide, C4_total_time_antitone dataW 100 200 (by decide) (by decide)⟩

/-- C6: the reading-speed slider is configured with minimum 1, maximum
exactly 3 × DEFAULT_READING_SPEED, fixed step 10, and initial value
DEFAULT_READING_SPEED. -/
theorem C6_slider_config (data : List Article) :
    (reading_time_plot data).slider.min = 1
      ∧ (reading_time_plot data).slider.max = 3 * DEFAULT_READING_SPEED
      ∧ (reading_time_plot data).slider.step = 10
      ∧ (reading_time_plot data).slider.value = DEFAULT_READING_SPEED :=
  ⟨rfl, Nat.mul_comm DEFAULT_READING_SPEED 3, rfl, rfl⟩

/-- C7: when every record's status is 0 (unread) or 1 (archived), the two
series of the reading-time histogram partition the collection: in every
half-open bucket, the unread-series count plus the archived-series count
equals the number of all articles whose reading time falls in that
bucket. -/
theorem C7_histogram_partition (data : List Article) (reading_speed : Nat)
    (lo hi : ℚ) (h : ∀ a ∈ data, a.status = 0 ∨ a.status = 1) :
    bucketCount lo hi ((get_reading_time_chart data reading_speed).series0)
        + bucketCount lo hi ((get_reading_time_chart data reading_speed).series1)
      = bucketCount lo hi (get_reading_time data reading_speed []) := by
  simp only [get_reading_time_chart]
  unfold bucketCount get_reading_time
  rw [length_filter_map_filter, length_filter_map_filter, length_filter_map_filter]
  simp only [matchesFilters_status, matchesFilters_nil, Bool.true_and]
  exact countP_status_partition _ data h

/-- C7 witness: on the two-article collection at 100 wpm, the bucket
`[0, 1000)` holds one unread and one archived article, two in total. -/
theorem C7_histogram_partition_witness :
    (∀ a ∈ dataW, a.status = 0 ∨ a.status = 1)
      ∧ bucketCount 0 1000 ((get_reading_time_chart dataW 100).series0)
          + bucketCount 0 1000 ((get_reading_time_chart dataW 100).series1)
        = bucketCount 0 1000 (get_reading_time dataW 100 []) :=
  ⟨by decide, C7_histogram_partition dataW 100 0 1000 (by decide)⟩

/-- C8: for a non-empty collection, the favorite summary multiplies the
favorited fraction by 100 and renders it to two decimal places: the
displayed rational is (favorited count) / (total count) × 100, and the body
text is that value formatted by the two-decimal renderer. -/
theorem C8_favorite_percentage (data : List Article) (_h : data ≠ []) :
    (get_favorite_count data).percent * 100
        = 100 * ((data.filter (fun a => a.favorite)).length : ℚ) / (data.length : ℚ)
      ∧ (favorite_count_plot data).body
        = toString ((data.filter (fun a => a.favorite)).length) ++ " articles ("
          ++ format2f (100 * ((data.filter (fun a => a.favorite)).length : ℚ)
              / (data.length : ℚ)) ++ " %)" := by
  constructor
  · simp only [get_favorite_count]
    ring
  · simp only [favorite_count_plot, get_favorite_count]
    rw [mul_div_assoc]

/-- C8 witness: the two-article collection with one favorite displays the
50.00 percent rendering. -/
theorem C8_favorite_percentage_witness :
    dataW ≠ []
      ∧ (get_favorite_count dataW).percent * 100
          = 100 * ((dataW.filter (fun a => a.favorite)).length : ℚ) / (dataW.length : ℚ)
      ∧ (favorite_count_plot dataW).body
        = toString ((dataW.filter (fun a => a.favorite)).length) ++ " articles ("
          ++ format2f (100 * ((dataW.filter (fun a => a.favorite)).length : ℚ)
              / (dataW.length : ℚ)) ++ " %)" :=
  ⟨by decide, (C8_favorite_percentage dataW (by decide)).1,
    (C8_favorite_percentage dataW (by decide)).2⟩

/-- C9: the reactive callback is deterministic and read-only: on any two
process states sharing the same collection it returns the same
figure-and-duration pair, and it returns the shared state unchanged. -/
theorem C9_callback_deterministic_readonly (s1 s2 : DashState)
    (reading_speed : Nat) (h : s1.data = s2.data) :
    (update_reading_time_componentsS s1 reading_speed).1
        = (update_reading_time_componentsS s2 reading_speed).1
      ∧ (update_reading_time_componentsS s1 reading_speed).2 = s1
      ∧ (update_reading_time_componentsS s2 reading_speed).2 = s2 := by
  refine ⟨?_, rfl, rfl⟩
  simp only [update_reading_time_componentsS, h]

/-- C9 witness: two states with the same collection but different pending
random draws get identical callback results, and both states are left
unchanged. -/
theorem C9_callback_deterministic_readonly_witness :
    stateA.data = stateB.data
      ∧ ((update_reading_time_componentsS stateA 100).1
          = (update_reading_time_componentsS stateB 100).1
        ∧ (update_reading_time_componentsS stateA 100).2 = stateA
        ∧ (update_reading_time_componentsS stateB 100).2 = stateB) :=
  ⟨by decide, C9_callback_deterministic_readonly stateA stateB 100 (by decide)⟩

/-- C3 counterexample: two process states share the same collection but
hold different pending random draws, and the word-cloud view returns
different figures on them — the word cloud is not a pure function of the
collection and its parameters. -/
theorem C3_counterexample :
    stateA.data = stateB.data
      ∧ (word_cloud_plotS stateA).1 ≠ (word_cloud_plotS stateB).1 := by
  exact ⟨rfl, by decide⟩

/-- C3 (amended): the loaded collection is never mutated by any view, and
every derived view except the word cloud is a pure function of the
collection and its parameters; the word cloud's words and font sizes are
a pure function of the collection, but its point coordinates and colors
additionally depend on the random source. -/
theorem C3_views_pure_except_word_cloud (s1 s2 : DashState)
    (should_cumsum : Bool) (reading_speed limit : Nat) (h : s1.data = s2.data) :
    (articles_over_time_plotS s1 should_cumsum).1
        = (articles_over_time_plotS s2 should_cumsum).1
      ∧ (word_counts_plotS s1).1 = (word_counts_plotS s2).1
      ∧ (get_reading_time_chartS s1 reading_speed).1
        = (get_reading_time_chartS s2 reading_speed).1
      ∧ (get_reading_time_neededS s1 reading_speed).1
        = (get_reading_time_neededS s2 reading_speed).1
      ∧ (domain_counts_plotS s1 limit).1 = (domain_counts_plotS s2 limit).1
      ∧ (language_counts_plotS s1).1 = (language_counts_plotS s2).1
      ∧ (favorite_count_plotS s1).1 = (favorite_count_plotS s2).1
      ∧ (word_cloud_plotS s1).1.text = (word_cloud_plotS s2).1.text
      ∧ (word_cloud_plotS s1).1.textSizes = (word_cloud_plotS s2).1.textSizes
      ∧ (word_cloud_plotS s1).2.data = s1.data
      ∧ (articles_over_time_plotS s1 should_cumsum).2 = s1
      ∧ (word_counts_plotS s1).2 = s1
      ∧ (get_reading_time_chartS s1 reading_speed).2 = s1
      ∧ (get_reading_time_neededS s1 reading_speed).2 = s1
      ∧ (domain_counts_plotS s1 limit).2 = s1
      ∧ (language_counts_plotS s1).2 = s1
      ∧ (favorite_count_plotS s1).2 = s1 := by
  simp [articles_over_time_plotS, word_counts_plotS, get_reading_time_chartS,
    get_reading_time_neededS, domain_counts_plotS, language_counts_plotS,
    favorite_count_plotS, word_cloud_plotS, word_cloud_plot, h]

/-- C3 witness: the amended purity and non-mutation facts instantiated on
the two states sharing the same collection with different random draws. -/
theorem C3_views_pure_except_word_cloud_witness :
    stateA.data = stateB.data
      ∧ ((articles_over_time_plotS stateA true).1
            = (articles_over_time_plotS stateB true).1
        ∧ (word_counts_plotS stateA).1 = (word_counts_plotS stateB).1
        ∧ (get_reading_time_chartS stateA 100).1 = (get_reading_time_chartS stateB 100).1
        ∧ (get_reading_time_neededS stateA 100).1 = (get_reading_time_neededS stateB 100).1
        ∧ (domain_counts_plotS stateA 20).1 = (domain_counts_plotS stateB 20).1
        ∧ (language_counts_plotS stateA).1 = (language_counts_plotS stateB).1
        ∧ (favorite_count_plotS stateA).1 = (favorite_count_plotS stateB).1
        ∧ (word_cloud_plotS stateA).1.text = (word_cloud_plotS stateB).1.text
        ∧ (word_cloud_plotS stateA).1.textSizes = (word_cloud_plotS stateB).1.textSizes
        ∧ (word_cloud_plotS stateA).2.data = stateA.data
        ∧ (articles_over_time_plotS stateA true).2 = stateA
        ∧ (word_counts_plotS stateA).2 = stateA
        ∧ (get_reading_time_chartS stateA 100).2 = stateA
        ∧ (get_reading_time_neededS stateA 100).2 = stateA
        ∧ (domain_counts_plotS stateA 20).2 = stateA
        ∧ (language_counts_plotS stateA).2 = stateA
        ∧ (favorite_count_plotS stateA).2 = stateA) :=
  ⟨rfl, C3_views_pure_except_word_cloud stateA stateB true 100 20 rfl⟩

end PocketStats
